import Mathlib

/-!
Shallow embedding of the transaction-inspector program (src/app.py) and
verification of its specification.

Modelling conventions: Python integers become Nat or Int, Python floats
become exact rationals (the arithmetic in the program is decimal scaling
and one 2-decimal rounding), optional RPC fields become Option, and the
process outcome (clean exit versus uncaught exception) becomes an
inductive RunOutcome. The four RPC fetches are modelled as an input
record, so the summary builder is the pure function it is in the source.
-/

namespace TxInspector

/-- NETWORKS table (app.py lines 12-19): chain id to network name. -/
def NETWORKS : List (Nat × String) :=
  [(1, "Ethereum Mainnet"), (10, "Optimism"), (56, "BNB Smart Chain"),
   (137, "Polygon"), (42161, "Arbitrum One"), (8453, "Base")]

/-- EXPLORERS table (app.py lines 21-28): chain id to explorer base URL. -/
def EXPLORERS : List (Nat × String) :=
  [(1, "https://etherscan.io"), (10, "https://optimistic.etherscan.io"),
   (56, "https://bscscan.com"), (137, "https://polygonscan.com"),
   (42161, "https://arbiscan.io"), (8453, "https://basescan.org")]

/-- Python dict.get on an association list with distinct keys. -/
def dictGet (d : List (Nat × String)) (k : Nat) : Option String :=
  (d.find? (fun p => p.1 == k)).map Prod.snd

/-- The hex-digit alphabet used by is_tx_hash (app.py line 32). -/
def hexChars : List Char := "0123456789abcdefABCDEF".data

/-- Python v.startswith("0x"): the first two characters are 0 and x. -/
def startsWith0x (v : String) : Bool := v.data.take 2 == ['0', 'x']

/-- is_tx_hash (app.py lines 31-32): v.startswith("0x") and len(v) == 66 and
all characters of v[2:] lie in the hex alphabet. The isinstance check is
vacuous here because the input is typed as a string. -/
def is_tx_hash (v : String) : Bool :=
  startsWith0x v && v.length == 66 && (v.data.drop 2).all (fun c => hexChars.contains c)

/-- explorer_url (app.py lines 44-46). -/
def explorer_url (chain_id : Nat) (tx_hash : String) : String :=
  match dictGet EXPLORERS chain_id with
  | some base => base ++ "/tx/" ++ tx_hash
  | none => "N/A"

/-- network lookup with synthesized fallback (app.py line 92):
NETWORKS.get(chain, f"Chain {chain}"). -/
def network_name (chain : Nat) : String :=
  (dictGet NETWORKS chain).getD ("Chain " ++ toString chain)

/-- The fields of the transaction object the program reads (get_transaction
result): blockNumber (None while pending), gas, from, to (None for
contract creation). -/
structure Tx where
  blockNumber : Option Int
  gas : Option Nat
  from_addr : String
  toField : Option String

/-- The fields of the receipt object the program reads: blockNumber,
gasUsed, status, and the two gas-price fields accessed with getattr
fallbacks (app.py line 83). -/
structure Receipt where
  blockNumber : Int
  gasUsed : Nat
  status : Nat
  effectiveGasPrice : Option Nat
  gasPrice : Option Nat

/-- The fields of the block object the program reads: timestamp, and the
two fields read with dict.get defaults (app.py lines 86 and 106). -/
structure Block where
  timestamp : Nat
  baseFeePerGas : Option Nat
  miner : Option String

/-- Python x or default on an optional string: None and the empty string
are falsy and yield the default. -/
def py_or_str (v : Option String) (d : String) : String :=
  match v with
  | none => d
  | some s => if s = "" then d else s

/-- gas_limit (app.py line 80): tx.gas or 0. For a natural-number gas this
coincides with Option.getD 0, since a falsy 0 maps to 0 either way. -/
def gas_limit_of (tx : Tx) : Nat := tx.gas.getD 0

/-- gas_eff (app.py line 81): (receipt.gasUsed / gas_limit * 100) if
gas_limit else 0.0, with Python truthiness on gas_limit. -/
def gas_eff (tx : Tx) (receipt : Receipt) : ℚ :=
  if gas_limit_of tx ≠ 0 then (receipt.gasUsed : ℚ) / (gas_limit_of tx : ℚ) * 100 else 0

/-- gas_price (app.py line 83): getattr(receipt, "effectiveGasPrice",
getattr(receipt, "gasPrice", 0)). -/
def receipt_gas_price (receipt : Receipt) : Nat :=
  match receipt.effectiveGasPrice with
  | some p => p
  | none =>
    match receipt.gasPrice with
    | some p => p
    | none => 0

/-- Python round to an integer: nearest integer, ties to even. -/
def round_half_even (q : ℚ) : Int :=
  let f : Int := ⌊q⌋
  let frac : ℚ := q - (f : ℚ)
  if frac < 1/2 then f
  else if frac > 1/2 then f + 1
  else if f % 2 = 0 then f else f + 1

/-- Python round(x, 2) (app.py line 102): round x * 100 to the nearest
integer, ties to even, and scale back. -/
def round2 (q : ℚ) : ℚ := (round_half_even (q * 100) : ℚ) / 100

/-- The TxSummary dataclass (app.py lines 49-67), same fields in the same
order; floats are modelled as exact rationals. -/
structure TxSummary where
  chainId : Nat
  network : String
  txHash : String
  from_addr : String
  to_addr : String
  blockNumber : Int
  timestamp : Nat
  confirmations : Int
  status : Nat
  gasUsed : Nat
  gasLimit : Nat
  gasEfficiency : ℚ
  gasPriceGwei : ℚ
  totalFeeEth : ℚ
  baseFeeGwei : ℚ
  miner : String
  explorer : String

/-- The summary construction of fetch_summary (app.py lines 80-109), after
the pending check, as the pure function of the fetched objects it is:
Web3.from_wei(x, "gwei") is x / 10^9 and Web3.from_wei(x, "ether") is
x / 10^18, both exact. -/
def build_summary (chain : Nat) (tx : Tx) (receipt : Receipt) (block : Block)
    (latest : Int) (tx_hash : String) : TxSummary :=
  { chainId := chain
    network := network_name chain
    txHash := tx_hash
    from_addr := tx.from_addr
    to_addr := py_or_str tx.toField "(contract creation)"
    blockNumber := receipt.blockNumber
    timestamp := block.timestamp
    confirmations := max 0 (latest - receipt.blockNumber)
    status := receipt.status
    gasUsed := receipt.gasUsed
    gasLimit := gas_limit_of tx
    gasEfficiency := round2 (gas_eff tx receipt)
    gasPriceGwei := (receipt_gas_price receipt : ℚ) / 10 ^ 9
    totalFeeEth := ((receipt.gasUsed * receipt_gas_price receipt : Nat) : ℚ) / 10 ^ 18
    baseFeeGwei := ((block.baseFeePerGas.getD 0 : Nat) : ℚ) / 10 ^ 9
    miner := block.miner.getD "N/A"
    explorer := explorer_url chain tx_hash }

/-- Field names of the TxSummary dataclass in declaration order: the keys
of the dict produced by asdict (app.py line 109). -/
def summaryKeys : List String :=
  ["chainId", "network", "txHash", "from_addr", "to_addr", "blockNumber",
   "timestamp", "confirmations", "status", "gasUsed", "gasLimit",
   "gasEfficiency", "gasPriceGwei", "totalFeeEth", "baseFeeGwei", "miner",
   "explorer"]

/-- Code-point order on character lists, the order Python sorted and
json.dumps sort_keys use for strings. -/
def charListLe : List Char → List Char → Bool
  | [], _ => true
  | _ :: _, [] => false
  | a :: as, b :: bs =>
    if a.toNat < b.toNat then true
    else if b.toNat < a.toNat then false
    else charListLe as bs

/-- Code-point order on strings. -/
def strLe (a b : String) : Bool := charListLe a.data b.data

/-- Insertion into a sorted list of keys. -/
def insertSorted (s : String) : List String → List String
  | [] => [s]
  | t :: ts => if strLe s t then s :: t :: ts else t :: insertSorted s ts

/-- Sorting of the key list, the effect of sort_keys=True in json.dumps
(app.py line 134). -/
def sortKeys : List String → List String
  | [] => []
  | s :: ss => insertSorted s (sortKeys ss)

/-- The keys of the emitted JSON object, in emission order. -/
def jsonKeys : List String := sortKeys summaryKeys

/-- Modelled from the spec: the Transaction Summary field names of spec
section 3, as the spec and the claim list them (fromAddr and toAddr in
camel case). Used only to compare the spec against the code. -/
def specSection3Keys : List String :=
  ["chainId", "network", "txHash", "fromAddr", "toAddr", "blockNumber",
   "timestamp", "confirmations", "status", "gasUsed", "gasLimit",
   "gasEfficiency", "gasPriceGwei", "totalFeeEth", "baseFeeGwei", "miner",
   "explorer"]

/-- DEFAULT_RPC (app.py line 10): the built-in placeholder endpoint, used
when neither --rpc nor the environment variable supplies one. -/
def DEFAULT_RPC : String := "https://mainnet.infura.io/v3/your_api_key"

/-- The action names argparse registers; an action keyword outside this
registry makes add_argument raise. -/
def argparse_registered_actions : List String :=
  ["store", "store_const", "store_true", "store_false", "append",
   "append_const", "count", "parsers", "help", "version", "extend"]

/-- argparse add_argument restricted to its action keyword: an
unregistered action name raises instead of producing an argument. -/
def add_argument_check (action : String) : Except String Unit :=
  if argparse_registered_actions.contains action then Except.ok ()
  else Except.error ("unknown action " ++ action)

/-- The namespace parse_args would return: tx_hash, rpc, json. -/
structure ParsedArgs where
  tx_hash : String
  rpc : String
  json : Bool

/-- Scan of the command line against the declared grammar (one positional
tx_hash, option --rpc with a value, flag --json); none models an argparse
usage error. Unreachable in the source, because building the parser
raises first. -/
def scan_argv : List String → Option String → String → Bool → Option ParsedArgs
  | [], some h, rpc, js => some ⟨h, rpc, js⟩
  | [], none, _, _ => none
  | "--json" :: rest, pos, rpc, _ => scan_argv rest pos rpc true
  | "--rpc" :: v :: rest, pos, _, js => scan_argv rest pos v js
  | a :: rest, none, rpc, js => scan_argv rest (some a) rpc js
  | _ :: _, some _, _, _ => none

/-- parse_args (app.py lines 112-117): three add_argument calls, the third
with the unregistered action string true, then the parse of argv. -/
def parse_args (argv : List String) : Except String (Option ParsedArgs) :=
  match add_argument_check "store" with
  | Except.error e => Except.error e
  | Except.ok _ =>
    match add_argument_check "store" with
    | Except.error e => Except.error e
    | Except.ok _ =>
      match add_argument_check "true" with
      | Except.error e => Except.error e
      | Except.ok _ => Except.ok (scan_argv argv none DEFAULT_RPC false)

/-- One run of the program: either a clean exit with a code, or an
uncaught exception. -/
inductive RunOutcome where
  | exited : Nat → RunOutcome
  | raised : String → RunOutcome

/-- The responses of the RPC endpoint for one run: connectivity of the
probe in connect, and the four fetched objects. -/
structure Rpc where
  connected : Bool
  chain_id : Nat
  tx : Tx
  receipt : Receipt
  block : Block
  latest : Int

/-- fetch_summary (app.py lines 70-109): none models the pending branch
(tx.blockNumber is None), which prints and exits 0 before building
anything. -/
def fetch_summary (rpc : Rpc) (tx_hash : String) : Option TxSummary :=
  match rpc.tx.blockNumber with
  | none => none
  | some _ => some (build_summary rpc.chain_id rpc.tx rpc.receipt rpc.block rpc.latest tx_hash)

/-- main (app.py lines 120-147): parse_args, hash validation with exit 1,
connect with exit 1 on a failed probe, the pending case with exit 0, and
the summary emission ending in a normal return (exit 0). -/
def main_result (rpc : Rpc) (argv : List String) : RunOutcome :=
  match parse_args argv with
  | Except.error e => RunOutcome.raised e
  | Except.ok none => RunOutcome.exited 2
  | Except.ok (some args) =>
    if is_tx_hash args.tx_hash = false then RunOutcome.exited 1
    else if rpc.connected = false then RunOutcome.exited 1
    else
      match fetch_summary rpc args.tx_hash with
      | none => RunOutcome.exited 0
      | some _ => RunOutcome.exited 0

/-- Specification-side predicate for claim C1: a hexadecimal digit, upper
or lower case. -/
def isHexDigitSpec (c : Char) : Prop :=
  c ∈ ['0', '1', '2', '3', '4', '5', '6', '7', '8', '9'] ∨
  c ∈ ['a', 'b', 'c', 'd', 'e', 'f'] ∨
  c ∈ ['A', 'B', 'C', 'D', 'E', 'F']

/-- Sample transaction with a 100000 gas limit. -/
def txGas100000 : Tx :=
  { blockNumber := some 95, gas := some 100000, from_addr := "0xsender",
    toField := some "0xrecipient" }

/-- Sample transaction with a zero gas limit. -/
def txGas0 : Tx :=
  { blockNumber := some 95, gas := some 0, from_addr := "0xsender",
    toField := some "0xrecipient" }

/-- Sample receipt with gasUsed 50000. -/
def rUsed50000 : Receipt :=
  { blockNumber := 95, gasUsed := 50000, status := 1, effectiveGasPrice := none, gasPrice := none }

/-- Sample receipt with gasUsed 0. -/
def rUsed0 : Receipt :=
  { blockNumber := 95, gasUsed := 0, status := 1, effectiveGasPrice := none, gasPrice := none }

/-- Sample receipt with gasUsed 21000 and effective gas price 30 gwei. -/
def rEff30gwei : Receipt :=
  { blockNumber := 95, gasUsed := 21000, status := 1,
    effectiveGasPrice := some 30000000000, gasPrice := some 7 }

/-- Sample block with no base fee and no miner. -/
def blkBare : Block :=
  { timestamp := 1700000000, baseFeePerGas := none, miner := none }

/-- Sample contract-creation transaction: no recipient. -/
def txCreate : Tx :=
  { blockNumber := some 95, gas := some 100000, from_addr := "0xsender", toField := none }

/-- The hex alphabet accepts exactly the hexadecimal digits, upper or
lower case. -/
theorem hexChars_contains_iff (c : Char) : hexChars.contains c = true ↔ isHexDigitSpec c := by
  simp [hexChars, isHexDigitSpec]
  tauto

/-- Rounding an integer changes nothing. -/
theorem round_half_even_intCast (n : Int) : round_half_even (n : ℚ) = n := by
  unfold round_half_even
  simp

/-- Rounding 50 to two decimals gives 50. -/
theorem round2_fifty : round2 50 = 50 := by
  have h : (50 : ℚ) * 100 = ((5000 : Int) : ℚ) := by norm_num
  unfold round2
  rw [h, round_half_even_intCast]
  norm_num

/-- Rounding 0 to two decimals gives 0. -/
theorem round2_zero : round2 0 = 0 := by
  have h : (0 : ℚ) * 100 = ((0 : Int) : ℚ) := by norm_num
  unfold round2
  rw [h, round_half_even_intCast]
  norm_num

/-- C1: the hash validator returns true exactly on strings of length 66
that start with the characters 0 and x and whose remaining 64 characters
are hexadecimal digits of either case; on every other string it returns
false. -/
theorem C1_is_tx_hash_iff (v : String) :
    is_tx_hash v = true ↔
      v.length = 66 ∧ v.data.take 2 = ['0', 'x'] ∧
      (v.data.drop 2).length = 64 ∧ ∀ c ∈ v.data.drop 2, isHexDigitSpec c := by
  unfold is_tx_hash startsWith0x
  simp only [Bool.and_eq_true, beq_iff_eq, List.all_eq_true, Nat.beq_eq_true_eq]
  constructor
  · rintro ⟨⟨h0x, hlen⟩, hall⟩
    have hdata : v.data.length = 66 := hlen
    refine ⟨hlen, h0x, ?_, fun c hc => (hexChars_contains_iff c).mp (hall c hc)⟩
    rw [List.length_drop, hdata]
  · rintro ⟨hlen, h0x, _, hall⟩
    exact ⟨⟨h0x, hlen⟩, fun c hc => (hexChars_contains_iff c).mpr (hall c hc)⟩

/-- C2: the gasEfficiency field is gasUsed / gasLimit * 100 rounded to two
decimals when the gas limit is nonzero, and 0 when the gas limit is 0; in
particular 50000 gas used of a 100000 limit gives 50, a 0 limit with 0
used gives 0, and the zero-limit case takes the guarded branch instead of
dividing. -/
theorem C2_gas_efficiency (chain : Nat) (tx : Tx) (r : Receipt) (b : Block)
    (latest : Int) (h : String) :
    (gas_limit_of tx ≠ 0 →
      (build_summary chain tx r b latest h).gasEfficiency =
        round2 ((r.gasUsed : ℚ) / (gas_limit_of tx : ℚ) * 100)) ∧
    (gas_limit_of tx = 0 → (build_summary chain tx r b latest h).gasEfficiency = 0) ∧
    (build_summary 1 txGas100000 rUsed50000 blkBare 100 "0xh").gasEfficiency = 50 ∧
    (build_summary 1 txGas0 rUsed0 blkBare 100 "0xh").gasEfficiency = 0 := by
  refine ⟨?_, ?_, ?_, ?_⟩
  · intro hl
    show round2 (gas_eff tx r) = _
    rw [gas_eff, if_pos hl]
  · intro hl
    show round2 (gas_eff tx r) = 0
    rw [gas_eff, if_neg (by simp [hl])]
    exact round2_zero
  · show round2 (gas_eff txGas100000 rUsed50000) = 50
    have e1 : gas_eff txGas100000 rUsed50000 = 50 := by
      rw [gas_eff]
      norm_num [gas_limit_of, txGas100000, rUsed50000]
    rw [e1]
    exact round2_fifty
  · show round2 (gas_eff txGas0 rUsed0) = 0
    have e1 : gas_eff txGas0 rUsed0 = 0 := by
      rw [gas_eff]
      norm_num [gas_limit_of, txGas0]
    rw [e1]
    exact round2_zero

/-- C2 witness: the two guarded branches evaluated at concrete inputs. -/
theorem C2_gas_efficiency_witness :
    (build_summary 1 txGas100000 rUsed50000 blkBare 100 "0xh").gasEfficiency =
      round2 ((rUsed50000.gasUsed : ℚ) / (gas_limit_of txGas100000 : ℚ) * 100) ∧
    (build_summary 1 txGas0 rUsed0 blkBare 100 "0xh").gasEfficiency = 0 :=
  ⟨(C2_gas_efficiency 1 txGas100000 rUsed50000 blkBare 100 "0xh").1 (by decide),
   (C2_gas_efficiency 1 txGas0 rUsed0 blkBare 100 "0xh").2.1 (by decide)⟩

/-- C3 counterexample: the emitted JSON keys are not the field names of
spec section 3: the spec lists fromAddr and toAddr, but the dataclass
names those fields from_addr and to_addr, and asdict followed by
json.dumps emits the dataclass names. -/
theorem C3_keys_counterexample :
    "fromAddr" ∈ specSection3Keys ∧ "fromAddr" ∉ jsonKeys ∧
    "toAddr" ∈ specSection3Keys ∧ "toAddr" ∉ jsonKeys ∧
    "from_addr" ∈ jsonKeys ∧ "to_addr" ∈ jsonKeys ∧
    jsonKeys ≠ sortKeys specSection3Keys := by decide

/-- C3 amended: the emitted JSON object has exactly the seventeen
dataclass field names as keys, with from_addr and to_addr in snake case
where the spec wrote fromAddr and toAddr, sorted in code-point order. -/
theorem C3_keys_amended :
    jsonKeys =
      ["baseFeeGwei", "blockNumber", "chainId", "confirmations", "explorer",
       "from_addr", "gasEfficiency", "gasLimit", "gasPriceGwei", "gasUsed",
       "miner", "network", "status", "timestamp", "to_addr", "totalFeeEth",
       "txHash"] ∧
    jsonKeys.Perm summaryKeys ∧
    jsonKeys.Pairwise (fun a b => strLe a b = true) := by decide

/-- C4: the confirmations field is the clamped difference of the latest
block number and the transaction block number, hence never negative; at
latest 100 and transaction block 95 it is 5, at latest 90 and transaction
block 95 it is 0. -/
theorem C4_confirmations (chain : Nat) (tx : Tx) (r : Receipt) (b : Block)
    (latest : Int) (h : String) :
    (build_summary chain tx r b latest h).confirmations = max 0 (latest - r.blockNumber) ∧
    0 ≤ (build_summary chain tx r b latest h).confirmations ∧
    (build_summary 1 txGas100000 rUsed50000 blkBare 100 "0xh").confirmations = 5 ∧
    (build_summary 1 txGas100000 rUsed50000 blkBare 90 "0xh").confirmations = 0 := by
  refine ⟨rfl, le_max_left 0 _, ?_, ?_⟩
  · show max 0 ((100 : Int) - rUsed50000.blockNumber) = 5
    norm_num [rUsed50000]
  · show max 0 ((90 : Int) - rUsed50000.blockNumber) = 0
    norm_num [rUsed50000]

/-- C5: the gas price used by the summary is the effective gas price when
the receipt carries one and the legacy gas price otherwise; gasPriceGwei
scales it by ten to the ninth and totalFeeEth scales gasUsed times it by
ten to the eighteenth; at an effective gas price of 30 gwei and 21000 gas
used, gasPriceGwei is 30 and totalFeeEth is 0.00063. -/
theorem C5_gas_price (chain : Nat) (tx : Tx) (r : Receipt) (b : Block)
    (latest : Int) (h : String) (p g : Nat) :
    (r.effectiveGasPrice = some p → receipt_gas_price r = p) ∧
    (r.effectiveGasPrice = none → r.gasPrice = some g → receipt_gas_price r = g) ∧
    (build_summary chain tx r b latest h).gasPriceGwei = (receipt_gas_price r : ℚ) / 10 ^ 9 ∧
    (build_summary chain tx r b latest h).totalFeeEth =
      ((r.gasUsed * receipt_gas_price r : Nat) : ℚ) / 10 ^ 18 ∧
    (build_summary 1 txGas100000 rEff30gwei blkBare 100 "0xh").gasPriceGwei = 30 ∧
    (build_summary 1 txGas100000 rEff30gwei blkBare 100 "0xh").totalFeeEth = 63 / 100000 := by
  refine ⟨?_, ?_, rfl, rfl, ?_, ?_⟩
  · intro he
    rw [receipt_gas_price, he]
  · intro he hg
    rw [receipt_gas_price, he, hg]
  · show ((receipt_gas_price rEff30gwei : Nat) : ℚ) / 10 ^ 9 = 30
    have e1 : receipt_gas_price rEff30gwei = 30000000000 := rfl
    rw [e1]
    norm_num
  · show ((rEff30gwei.gasUsed * receipt_gas_price rEff30gwei : Nat) : ℚ) / 10 ^ 18 = 63 / 100000
    have e1 : rEff30gwei.gasUsed * receipt_gas_price rEff30gwei = 630000000000000 := rfl
    rw [e1]
    norm_num

/-- C5 witness: the preference order of the two gas-price fields evaluated
at concrete receipts. -/
theorem C5_gas_price_witness :
    receipt_gas_price rEff30gwei = 30000000000 ∧
    receipt_gas_price
      { blockNumber := 95, gasUsed := 21000, status := 1,
        effectiveGasPrice := none, gasPrice := some 7 } = 7 :=
  ⟨(C5_gas_price 1 txGas100000 rEff30gwei blkBare 100 "0xh" 30000000000 7).1 rfl,
   (C5_gas_price 1 txGas100000
      { blockNumber := 95, gasUsed := 21000, status := 1,
        effectiveGasPrice := none, gasPrice := some 7 }
      blkBare 100 "0xh" 0 7).2.1 rfl rfl⟩

/-- C6: outside the lookup tables the network field is the synthesized
Chain label and the explorer field is N/A; for a chain id in the explorer
table the explorer field appends /tx/ and the hash to the base URL; chain
id 1 resolves to the etherscan URL and chain id 999999 to N/A. -/
theorem C6_network_explorer (chain : Nat) (tx : Tx) (r : Receipt) (b : Block)
    (latest : Int) (h base : String) :
    (build_summary chain tx r b latest h).network = network_name chain ∧
    (build_summary chain tx r b latest h).explorer = explorer_url chain h ∧
    (dictGet NETWORKS chain = none → network_name chain = "Chain " ++ toString chain) ∧
    (dictGet EXPLORERS chain = none → explorer_url chain h = "N/A") ∧
    (dictGet EXPLORERS chain = some base → explorer_url chain h = base ++ "/tx/" ++ h) ∧
    explorer_url 1 h = "https://etherscan.io/tx/" ++ h ∧
    explorer_url 999999 h = "N/A" := by
  refine ⟨rfl, rfl, ?_, ?_, ?_, ?_, rfl⟩
  · intro hn
    rw [network_name, hn]
    rfl
  · intro he
    rw [explorer_url, he]
  · intro he
    rw [explorer_url, he]
  · show ("https://etherscan.io" ++ "/tx/") ++ h = "https://etherscan.io/tx/" ++ h
    rw [show ("https://etherscan.io" ++ "/tx/" : String) = "https://etherscan.io/tx/" from rfl]

/-- C6 witness: the fallback and table branches evaluated at chain ids
999999 and 1. -/
theorem C6_network_explorer_witness :
    network_name 999999 = "Chain " ++ toString 999999 ∧
    explorer_url 999999 "0xh" = "N/A" ∧
    explorer_url 1 "0xh" = "https://etherscan.io" ++ "/tx/" ++ "0xh" :=
  ⟨(C6_network_explorer 999999 txGas100000 rUsed50000 blkBare 100 "0xh" "").2.2.1 rfl,
   (C6_network_explorer 999999 txGas100000 rUsed50000 blkBare 100 "0xh" "").2.2.2.1 rfl,
   (C6_network_explorer 1 txGas100000 rUsed50000 blkBare 100 "0xh"
      "https://etherscan.io").2.2.2.2.1 rfl⟩

/-- C7: a transaction without a recipient renders the contract-creation
sentinel, a block without a base-fee field gives baseFeeGwei 0, and a
block without a miner field gives the miner sentinel N/A. -/
theorem C7_sentinels (chain : Nat) (tx : Tx) (r : Receipt) (b : Block)
    (latest : Int) (h : String) :
    (tx.toField = none →
      (build_summary chain tx r b latest h).to_addr = "(contract creation)") ∧
    (b.baseFeePerGas = none → (build_summary chain tx r b latest h).baseFeeGwei = 0) ∧
    (b.miner = none → (build_summary chain tx r b latest h).miner = "N/A") := by
  refine ⟨?_, ?_, ?_⟩
  · intro ht
    show py_or_str tx.toField "(contract creation)" = _
    rw [ht]
    rfl
  · intro hb
    show ((b.baseFeePerGas.getD 0 : Nat) : ℚ) / 10 ^ 9 = 0
    rw [hb]
    simp
  · intro hm
    show b.miner.getD "N/A" = "N/A"
    rw [hm]
    rfl

/-- C7 witness: the three sentinels evaluated at a recipient-free
transaction and a bare block. -/
theorem C7_sentinels_witness :
    (build_summary 1 txCreate rUsed50000 blkBare 100 "0xh").to_addr = "(contract creation)" ∧
    (build_summary 1 txGas100000 rUsed50000 blkBare 100 "0xh").baseFeeGwei = 0 ∧
    (build_summary 1 txGas100000 rUsed50000 blkBare 100 "0xh").miner = "N/A" :=
  ⟨(C7_sentinels 1 txCreate rUsed50000 blkBare 100 "0xh").1 rfl,
   (C7_sentinels 1 txGas100000 rUsed50000 blkBare 100 "0xh").2.1 rfl,
   (C7_sentinels 1 txGas100000 rUsed50000 blkBare 100 "0xh").2.2 rfl⟩

/-- C8: contrary to the claimed exit-code contract, every invocation of
the program raises inside parse_args, because the json flag is declared
with the unregistered action string true; no run reaches the hash
validation, the connectivity check, the pending branch or the summary,
so no run exits 0 or exits 1 with a user-facing message. -/
theorem C8_exit_codes_never_reached (rpc : Rpc) (argv : List String) :
    main_result rpc argv = RunOutcome.raised "unknown action true" := rfl

/-- C9: contrary to the claim, argument parsing never succeeds: the action
string true is not a registered argparse action, so building the parser
raises before any command line is examined, with or without the json
flag. -/
theorem C9_json_flag_invalid (argv : List String) :
    parse_args argv = Except.error "unknown action true" ∧
    add_argument_check "true" = Except.error "unknown action true" ∧
    argparse_registered_actions.contains "true" = false :=
  ⟨rfl, rfl, rfl⟩

/-- C10: a receipt carrying neither gas-price field makes the builder use
0 as the gas price, so gasPriceGwei and totalFeeEth are both 0. -/
theorem C10_missing_gas_price (chain : Nat) (tx : Tx) (r : Receipt) (b : Block)
    (latest : Int) (h : String)
    (he : r.effectiveGasPrice = none) (hg : r.gasPrice = none) :
    receipt_gas_price r = 0 ∧
    (build_summary chain tx r b latest h).gasPriceGwei = 0 ∧
    (build_summary chain tx r b latest h).totalFeeEth = 0 := by
  have e0 : receipt_gas_price r = 0 := by rw [receipt_gas_price, he, hg]
  refine ⟨e0, ?_, ?_⟩
  · show ((receipt_gas_price r : Nat) : ℚ) / 10 ^ 9 = 0
    rw [e0]
    simp
  · show ((r.gasUsed * receipt_gas_price r : Nat) : ℚ) / 10 ^ 18 = 0
    rw [e0]
    simp

/-- C10 witness: the zero gas price evaluated at a receipt with neither
field. -/
theorem C10_missing_gas_price_witness :
    receipt_gas_price rUsed50000 = 0 ∧
    (build_summary 1 txGas100000 rUsed50000 blkBare 100 "0xh").gasPriceGwei = 0 ∧
    (build_summary 1 txGas100000 rUsed50000 blkBare 100 "0xh").totalFeeEth = 0 :=
  C10_missing_gas_price 1 txGas100000 rUsed50000 blkBare 100 "0xh" rfl rfl

end TxInspector
